import Mathlib

/-!
A shallow embedding of the dialog core of the `rsipstack` SIP stack
(`src/dialog/dialog.rs`, `src/dialog/registration.rs`, `src/dialog/invitation.rs`),
together with theorems settling the specification claims about it.

SIP messages are represented by their typed content (the source delegates
parsing/serialization to the `rsip` typed-message library); machine integers
(`u32`, `u16`) are natural numbers reduced modulo `2^32` / bounded by `2^16`
where the code can overflow.  Stateful methods become functions from an
explicit state record to an updated record; the unbounded state channel is a
list of published events together with an open/closed flag; the successive
results of `tx.receive()` are passed in as a list of messages (the end of the
list standing for `receive()` returning `None`).
-/

namespace RsipStack

/-- SIP parameter, as used on URIs, `Via`, `To`/`From` and `Contact` headers
(`rsip::Param`).  `received`, `rport` and `expires` values are kept as the
wire strings; IP-address parsing of a `received` value is modelled as the
identity (malformed addresses are not distinguished in this embedding). -/
inductive Param where
  | transport (t : String)
  | tag (t : String)
  | received (v : String)
  | lr
  | expiresP (v : String)
  | other (key : String) (value : Option String)
  deriving DecidableEq, Repr

/-- `rsip::HostWithPort`. -/
structure HostWithPort where
  host : String
  port : Option Nat
  deriving DecidableEq, Repr

/-- `crate::transport::SipAddr`: a transport type plus host and port. -/
structure SipAddr where
  ttype : Option String
  addr : HostWithPort
  deriving DecidableEq, Repr

/-- `rsip::Uri`.  `auth` keeps only the user part (passwords are never set by
the analysed code). -/
structure Uri where
  scheme : Option String
  auth : Option String
  host_with_port : HostWithPort
  params : List Param
  uheaders : List String
  deriving DecidableEq, Repr

/-- A typed `From`/`To` header value (`rsip::typed::From` / `rsip::typed::To`). -/
structure NameAddr where
  display_name : Option String
  uri : Uri
  params : List Param
  deriving DecidableEq, Repr

/-- A typed `Contact` header value (`rsip::typed::Contact`). -/
structure ContactVal where
  display_name : Option String
  uri : Uri
  params : List Param
  deriving DecidableEq, Repr

/-- A typed `Via` header value: the address it advertises (its sent-by part),
the branch parameter, and the remaining parameters (`received`, `rport`, …). -/
structure ViaVal where
  sentBy : Option SipAddr
  branch : Option String
  params : List Param
  deriving DecidableEq, Repr

/-- SIP method (`rsip::Method`). -/
inductive Method where
  | invite
  | ack
  | bye
  | cancel
  | register
  | options
  | info
  | update
  | notify
  | message
  deriving DecidableEq, Repr

/-- A typed `CSeq` header value. -/
structure CSeqVal where
  seq : Nat
  method : Method
  deriving DecidableEq, Repr

/-- SIP header (`rsip::Header`), restricted to the kinds the analysed code
reads or writes; any other header is `other`.  A `Route` / `Record-Route`
value is represented by its parsed content: the list of route URIs
(the untyped `value()` round-trips through `Route::from` unchanged). -/
inductive Header where
  | via (v : ViaVal)
  | callId (v : String)
  | fromH (v : NameAddr)
  | toH (v : NameAddr)
  | cseq (v : CSeqVal)
  | userAgent (v : String)
  | contact (v : ContactVal)
  | route (uris : List Uri)
  | recordRoute (uris : List Uri)
  | maxForwards (v : Nat)
  | contentLength (v : Nat)
  | contentType (v : String)
  | allow (v : String)
  | authorization (v : String)
  | other (key : String) (value : String)
  deriving DecidableEq, Repr

/-- `rsip::Request` (version is always `SIP/2.0` in the analysed code and is
omitted). -/
structure Request where
  method : Method
  uri : Uri
  headers : List Header
  body : List Nat
  deriving DecidableEq, Repr

/-- `rsip::Response`.  The status code is the numeric SIP status. -/
structure Response where
  status_code : Nat
  headers : List Header
  body : List Nat
  deriving DecidableEq, Repr

/-- `rsip::SipMessage`, as returned by `tx.receive()`. -/
inductive Msg where
  | response (r : Response)
  | request (r : Request)
  deriving DecidableEq, Repr

/-- Dialog identifier (`DialogId`): call-id plus the two tags. -/
structure DialogId where
  call_id : String
  from_tag : String
  to_tag : String
  deriving DecidableEq, Repr

/-- `TerminatedReason` from `dialog.rs`. -/
inductive TerminatedReason where
  | timeout
  | uacCancel
  | uacBye
  | uasBye
  | uacBusy
  | uasBusy
  | uasDecline
  | proxyError (code : Nat)
  | proxyAuthRequired
  | uacOther (code : Option Nat)
  | uasOther (code : Option Nat)
  deriving DecidableEq, Repr

/-- `DialogState` from `dialog.rs`. -/
inductive DialogState where
  | calling (id : DialogId)
  | trying (id : DialogId)
  | early (id : DialogId) (resp : Response)
  | waitAck (id : DialogId) (resp : Response)
  | confirmed (id : DialogId)
  | updated (id : DialogId) (req : Request)
  | notifyS (id : DialogId) (req : Request)
  | infoS (id : DialogId) (req : Request)
  | optionsS (id : DialogId) (req : Request)
  | terminated (id : DialogId) (reason : TerminatedReason)
  deriving DecidableEq, Repr

/-- `TransactionRole` from the transaction layer key module. -/
inductive TransactionRole where
  | client
  | server
  deriving DecidableEq, Repr

/-- `Credential` from `authenticate.rs`. -/
structure Credential where
  username : String
  password : String
  realm : Option String
  deriving DecidableEq, Repr

/-- The transient *event* states, exactly those that `DialogInner::transition`
does not persist (`Updated`, `Notify`, `Info`, `Options`). -/
def DialogState.isTransientEvent : DialogState → Bool
  | .updated _ _ | .notifyS _ _ | .infoS _ _ | .optionsS _ _ => true
  | _ => false

/-- The mutable state owned by `DialogInner`, with the state-update channel
made explicit: `events` is the sequence of states sent on the channel and
`channelOpen` tells whether the receiving side is still connected (a send on
a closed channel fails and is swallowed by the code). -/
structure DialogSt where
  role : TransactionRole
  id : DialogId
  state : DialogState
  localSeq : Nat
  remoteSeq : Nat
  localContact : Option Uri
  remoteUri : Uri
  fromV : NameAddr
  toV : NameAddr
  credential : Option Credential
  routeSet : List (List Uri)
  publicAddress : Option SipAddr
  initialRequest : Request
  events : List DialogState
  channelOpen : Bool
  deriving DecidableEq, Repr

/-- `DialogInner::transition`: best-effort send of the new state on the state
channel (a closed channel only logs), then return early for the transient
event states, otherwise overwrite the persistent state. -/
def transition (st : DialogSt) (s : DialogState) : DialogSt :=
  let st1 := if st.channelOpen then { st with events := st.events ++ [s] } else st
  match s with
  | .updated _ _ | .notifyS _ _ | .infoS _ _ | .optionsS _ _ => st1
  | _ => { st1 with state := s }

/-- Discriminant of a header, used for the `unique_push` overwrite test. -/
def Header.kind : Header → Nat
  | .via _ => 0
  | .callId _ => 1
  | .fromH _ => 2
  | .toH _ => 3
  | .cseq _ => 4
  | .userAgent _ => 5
  | .contact _ => 6
  | .route _ => 7
  | .recordRoute _ => 8
  | .maxForwards _ => 9
  | .contentLength _ => 10
  | .contentType _ => 11
  | .allow _ => 12
  | .authorization _ => 13
  | .other _ _ => 14

/-- Modelled from the spec: `rsip::Headers::unique_push` overwrites headers of
the same kind (the old same-kind headers are removed and the new one pushed). -/
def uniquePush (hs : List Header) (h : Header) : List Header :=
  hs.filter (fun h0 => Header.kind h0 != Header.kind h) ++ [h]

/-- First `CSeq` header of a message (`cseq_header()`). -/
def cseqOf (hs : List Header) : Option CSeqVal :=
  hs.findSome? fun h => match h with | .cseq c => some c | _ => none

/-- First `From` header (`from_header()`). -/
def fromOf (hs : List Header) : Option NameAddr :=
  hs.findSome? fun h => match h with | .fromH f => some f | _ => none

/-- First `To` header (`to_header()`). -/
def toOf (hs : List Header) : Option NameAddr :=
  hs.findSome? fun h => match h with | .toH t => some t | _ => none

/-- First `Route` header (`route_header()`), as its list of route URIs. -/
def firstRouteOf (hs : List Header) : Option (List Uri) :=
  hs.findSome? fun h => match h with | .route r => some r | _ => none

/-- Modelled from the spec: `extract_uri_from_contact` (from `rsip_ext`, not
among the analysed sources) returns the URI contained in the first `Contact`
header. -/
def contactUriOf (hs : List Header) : Option Uri :=
  hs.findSome? fun h => match h with | .contact c => some c.uri | _ => none

/-- All `Record-Route` header values, in wire order. -/
def recordRoutesOf (hs : List Header) : List (List Uri) :=
  hs.filterMap fun h => match h with | .recordRoute r => some r | _ => none

/-- All `Via` header values, in wire order. -/
def viasOf (hs : List Header) : List ViaVal :=
  hs.filterMap fun h => match h with | .via v => some v | _ => none

def Param.isTag : Param → Bool
  | .tag _ => true
  | _ => false

def Param.isTransport : Param → Bool
  | .transport _ => true
  | _ => false

/-- Decimal digit value of a character. -/
def digitVal (c : Char) : Option Nat :=
  if c = '0' then some 0 else if c = '1' then some 1 else if c = '2' then some 2
  else if c = '3' then some 3 else if c = '4' then some 4 else if c = '5' then some 5
  else if c = '6' then some 6 else if c = '7' then some 7 else if c = '8' then some 8
  else if c = '9' then some 9 else none

/-- Decimal parse of a string: all characters must be digits and there must
be at least one (the standard library's string scanners use well-founded
recursion and are avoided on purpose). -/
def parseNat? (s : String) : Option Nat :=
  match s.data.mapM digitVal with
  | some l => if l.isEmpty then none else some (l.foldl (fun n d => n * 10 + d) 0)
  | none => none

/-- `u16` parse of a string (`value.parse::<u16>()`). -/
def parseU16 (s : String) : Option Nat :=
  match parseNat? s with
  | some n => if n < 2 ^ 16 then some n else none
  | none => none

/-- The endpoint facade: its user-agent string, the default local address and
branch that `get_via` stamps when none is supplied, and the call-id generator
(one fresh value, enough for a single request construction). -/
structure Endpoint where
  userAgent : String
  defaultAddr : SipAddr
  defaultBranch : String
  freshCallId : String
  deriving DecidableEq, Repr

/-- Modelled from the spec: `endpoint.get_via(addr?, branch?)` builds a `Via`
advertising the given address (the endpoint's own address when none is given)
and stamps a unique branch when none is supplied. -/
def Endpoint.getVia (ep : Endpoint) (addr : Option SipAddr) (branch : Option String) : ViaVal :=
  { sentBy := some (addr.getD ep.defaultAddr)
    branch := some (branch.getD ep.defaultBranch)
    params := [] }

/-- Modelled from the spec: `endpoint.make_request(method, uri, via, from, to,
cseq)` assembles a request from exactly those pieces (the call-id is generated
by the endpoint). -/
def Endpoint.mkRequest (ep : Endpoint) (method : Method) (uri : Uri) (via : ViaVal)
    (fromN toN : NameAddr) (seq : Nat) : Request :=
  { method := method
    uri := uri
    headers := [.via via, .fromH fromN, .toH toN, .callId ep.freshCallId,
                .cseq ⟨seq, method⟩, .maxForwards 70]
    body := [] }

/-- A client transaction, as the analysed code uses it: the request it was
created from, the destination override and the connection chosen by routing. -/
structure Transaction where
  original : Request
  destination : Option SipAddr
  connection : Option String
  deriving DecidableEq, Repr

/-- Replace the sequence number of every `CSeq` header. -/
def setCSeqSeq (hs : List Header) (seq : Nat) : List Header :=
  hs.map fun h => match h with | .cseq c => .cseq { c with seq := seq } | h => h

/-- Modelled from the spec: `handle_client_authenticate` (from
`authenticate.rs`, not among the analysed sources) computes a digest
authorization header from the challenge and the credential (the digest
computation itself is the abstract function `digest`), attaches it to a new
copy of the challenged request carrying the given CSeq, and produces a fresh
transaction for it.  In particular it does not touch any other header of the
challenged request — the `Via` is the one of the original request. -/
def handleClientAuthenticate (digest : Credential → Response → String) (seq : Nat)
    (tx : Transaction) (resp : Response) (cred : Credential) : Transaction :=
  let req := tx.original
  let req' : Request :=
    { req with headers := uniquePush (setCSeqSeq req.headers seq) (.authorization (digest cred resp)) }
  { original := req', destination := tx.destination, connection := tx.connection }

/-- The external collaborators `do_request` suspends on: the transport-layer
lookup (`transport_layer.lookup`) and the digest computation used by the
authenticator. -/
structure Env where
  lookup : Uri → Except String (String × SipAddr)
  digest : Credential → Response → String

/-- `DialogInner::new`.  The call to `generate_random_cseq()` (transaction
module, modelled from the spec: it returns a random `u32`) is passed in as
the parameter `rnd`, reduced to 32 bits.  Fallible header accesses return an
error, as the `?` operators in the source do. -/
def DialogInner.new (role : TransactionRole) (id : DialogId) (initialRequest : Request)
    (rnd : Nat) (credential : Option Credential) (localContact : Option Uri) :
    Except String DialogSt :=
  match cseqOf initialRequest.headers with
  | none => .error "no cseq header"
  | some c =>
    let seqs : Nat × Nat := match role with
      | .client => (c.seq, c.seq)
      | .server => (rnd % 2 ^ 32, c.seq)
    let remoteUri? : Option Uri := match role with
      | .client => some initialRequest.uri
      | .server => contactUriOf initialRequest.headers
    match remoteUri? with
    | none => .error "no contact header"
    | some remoteUri =>
      match fromOf initialRequest.headers, toOf initialRequest.headers with
      | some f, some t =>
        let t := if t.params.any Param.isTag then t
                 else { t with params := t.params ++ [.tag id.to_tag] }
        let ft : NameAddr × NameAddr := match role with
          | .client => (f, t)
          | .server => (t, f)
        let routeSet : List (List Uri) := match role with
          | .server => recordRoutesOf initialRequest.headers
          | .client => []
        .ok { role := role
              id := id
              state := .calling id
              localSeq := seqs.1
              remoteSeq := seqs.2
              localContact := localContact
              remoteUri := remoteUri
              fromV := ft.1
              toV := ft.2
              credential := credential
              routeSet := routeSet
              publicAddress := none
              initialRequest := initialRequest
              events := []
              channelOpen := true }
      | _, _ => .error "missing from or to header"

/-- `DialogInner::increment_local_seq` (32-bit `fetch_add` then load). -/
def incrementLocalSeq (st : DialogSt) : Nat × DialogSt :=
  let n := (st.localSeq + 1) % 2 ^ 32
  (n, { st with localSeq := n })

/-- `DialogInner::make_request`: assembles the request exactly as the source
pushes headers; returns the request and the updated dialog state (the local
CSeq is auto-incremented only when no CSeq is supplied). -/
def makeRequest (ep : Endpoint) (st : DialogSt) (method : Method) (cseq : Option Nat)
    (addr : Option SipAddr) (branch : Option String) (headers : Option (List Header))
    (body : Option (List Nat)) : Request × DialogSt :=
  let hs0 := headers.getD []
  let seqSt : Nat × DialogSt := match cseq with
    | some c => (c, st)
    | none => incrementLocalSeq st
  let st := seqSt.2
  let cseqHeader : CSeqVal := { seq := seqSt.1, method := method }
  let viaAddr := addr.or st.publicAddress
  let via := ep.getVia viaAddr branch
  let hs := hs0 ++ [.via via]
  let hs := hs ++ [.callId st.id.call_id]
  let hs := hs ++ [.fromH st.fromV]
  let hs := hs ++ [.toH st.toV]
  let hs := hs ++ [.cseq cseqHeader]
  let hs := hs ++ [.userAgent ep.userAgent]
  let hs := hs ++ (match st.localContact with
    | some c => [.contact ⟨none, c, []⟩]
    | none => [])
  let hs := hs ++ st.routeSet.map Header.route
  let hs := hs ++ [.maxForwards 70]
  let hs := hs ++ (match body with
    | some b => [.contentLength b.length]
    | none => [])
  ({ method := method, uri := st.remoteUri, headers := hs, body := body.getD [] }, st)

/-- One iteration of the copy loop of `make_response`: which headers of the
triggering request are echoed into the response, the `To` tag being added for
any non-100 status when not already present. -/
def copyOne (toTag : String) (status : Nat) : Header → List Header
  | .via v => [.via v]
  | .fromH f => [.fromH f]
  | .toH t =>
    let t := if status ≠ 100 ∧ ¬ t.params.any Param.isTag
             then { t with params := t.params ++ [.tag toTag] } else t
    [.toH t]
  | .cseq c => [.cseq c]
  | .callId c => [.callId c]
  | .recordRoute r => [.recordRoute r]
  | _ => []

/-- The copy phase of `make_response`: the optional local `Contact` pushed
first, then the echoed headers of the triggering request in request order. -/
def respCopied (st : DialogSt) (request : Request) (status : Nat) : List Header :=
  (match st.localContact with
    | some c => [.contact ⟨none, c, []⟩]
    | none => []) ++ request.headers.flatMap (copyOne st.id.to_tag status)

/-- `DialogInner::make_response`. -/
def makeResponse (ep : Endpoint) (st : DialogSt) (request : Request) (status : Nat)
    (headers : Option (List Header)) (body : Option (List Nat)) : Response :=
  let withCustom := (headers.getD []).foldl uniquePush (respCopied st request status)
  let withCL := withCustom ++ (match body with
    | some b => [.contentLength b.length]
    | none => [])
  let final := uniquePush withCL (.userAgent ep.userAgent)
  { status_code := status, headers := final, body := body.getD [] }

/-- The outcome of `do_request` on a given message sequence: the final dialog
state, the returned value (`Some response` or `None`), and the transactions
sent on the wire (the initial one first, then each authenticated retry). -/
structure DoReqOut where
  st : DialogSt
  result : Option Response
  sent : List Transaction
  deriving Repr

/-- The CSeq used for an authenticated retry in `do_request`: the current
local CSeq for CANCEL (`get_local_seq`), the incremented one otherwise. -/
def authSeq (method : Method) (st : DialogSt) : Nat × DialogSt :=
  match method with
  | .cancel => (st.localSeq, st)
  | _ => incrementLocalSeq st

/-- The response loop of `DialogInner::do_request`.  Faithful to the source:
`100` is skipped; `180`/`183` publish `Early`; on a `401`/`407` the
`auth_sent` flag is set first, then with a credential the transaction is
rebuilt through the authenticator (CSeq incremented, except for CANCEL which
keeps it) and resent, while without a credential the dialog transitions to
`Terminated(ProxyAuthRequired)` and the loop *continues* (there is no break in
that branch); a `401`/`407` after a retry terminates and breaks; any other
response is returned; a non-response message breaks. -/
def doRequestLoop (env : Env) (method : Method) (st : DialogSt) (tx : Transaction)
    (authSent : Bool) : List Msg → DoReqOut
  | [] => ⟨st, none, []⟩
  | .request _ :: _ => ⟨st, none, []⟩
  | .response resp :: rest =>
    if resp.status_code = 100 then
      doRequestLoop env method st tx authSent rest
    else if resp.status_code = 180 ∨ resp.status_code = 183 then
      doRequestLoop env method (transition st (.early st.id resp)) tx authSent rest
    else if resp.status_code = 401 ∨ resp.status_code = 407 then
      if authSent then
        ⟨transition st (.terminated st.id .proxyAuthRequired), none, []⟩
      else
        match st.credential with
        | some cred =>
          let seqSt := authSeq method st
          let tx' := handleClientAuthenticate env.digest seqSt.1 tx resp cred
          let out := doRequestLoop env method seqSt.2 tx' true rest
          ⟨out.st, out.result, tx' :: out.sent⟩
        | none =>
          doRequestLoop env method
            (transition st (.terminated st.id .proxyAuthRequired)) tx true rest
    else
      ⟨st, some resp, []⟩

/-- `DialogInner::do_request`: loose routing (resolve the first `Route` URI
with all URI parameters but `transport` stripped; a failed lookup falls back
to no connection and no destination), transaction construction with the
destination override, initial send, then the response loop. -/
def doRequest (env : Env) (st : DialogSt) (request : Request) (msgs : List Msg) : DoReqOut :=
  let cd : Option String × Option SipAddr :=
    match firstRouteOf request.headers with
    | some uris =>
      match uris.head? with
      | some firstUri =>
        let routeUri := { firstUri with params := firstUri.params.filter Param.isTransport }
        match env.lookup routeUri with
        | .ok p => (some p.1, some p.2)
        | .error _ => (none, none)
      | none => (none, none)
    | none => (none, none)
  let tx : Transaction := { original := request, destination := cd.2, connection := cd.1 }
  let out := doRequestLoop env request.method st tx false msgs
  ⟨out.st, out.result, tx :: out.sent⟩

/-- The state of `Registration` (`registration.rs`). -/
structure Registration where
  lastSeq : Nat
  credential : Option Credential
  contact : Option ContactVal
  allow : String
  publicAddress : Option (String × Nat)
  deriving DecidableEq, Repr

/-- `Registration::new` (`generate_random_cseq()` is passed in as `rnd`). -/
def Registration.new (rnd : Nat) (credential : Option Credential) : Registration :=
  { lastSeq := rnd % 2 ^ 32
    credential := credential
    contact := none
    allow := ""
    publicAddress := none }

/-- `Registration::discovered_public_address`. -/
def Registration.discoveredPublicAddress (st : Registration) : Option (String × Nat) :=
  st.publicAddress

/-- The `expires` parameter of a contact, as `rsip::typed::Contact::expires`
finds it: the first `expires` parameter. -/
def ContactVal.expiresParam (c : ContactVal) : Option String :=
  c.params.findSome? fun p => match p with | .expiresP v => some v | _ => none

/-- `u32` parse of a string (`Expires::seconds`). -/
def parseU32 (s : String) : Option Nat :=
  match parseNat? s with
  | some n => if n < 2 ^ 32 then some n else none
  | none => none

/-- `Registration::expires`: the `expires` parameter of the cached contact,
with 50 as the default at every failure point. -/
def Registration.expires (st : Registration) : Nat :=
  match st.contact with
  | some c =>
    match c.expiresParam with
    | some v => (parseU32 v).getD 50
    | none => 50
  | none => 50

/-- Extraction of the `received=<ip>` and `rport=<port>` parameters of one
`Via`, as the scans in `register` do it: every parameter is visited in order
(a later occurrence overwrites), the `rport` value must parse as `u16`; the
pair is returned only when both are present. -/
def extractReceivedRport (v : ViaVal) : Option (String × Nat) :=
  let acc := v.params.foldl
    (fun (acc : Option String × Option Nat) p =>
      match p with
      | .received r => (some r, acc.2)
      | .other key (some value) =>
        if key = "rport" then
          match parseU16 value with
          | some n => (acc.1, some n)
          | none => acc
        else acc
      | _ => acc)
    (none, none)
  match acc with
  | (some ip, some port) => some (ip, port)
  | _ => none

/-- The `Via` scan of `register` on a `401`/`407` or `200` response: for each
`Via` header carrying both `received` and `rport`, if the pair differs from
the stored public address, store it and invalidate the cached contact. -/
def scanVias (st : Registration) (resp : Response) : Registration :=
  (viasOf resp.headers).foldl
    (fun st v =>
      match extractReceivedRport v with
      | some rp =>
        if st.publicAddress ≠ some rp then
          { st with publicAddress := some rp, contact := none }
        else st
      | none => st)
    st

/-- Errors surfaced by `register`. -/
inductive RegErr where
  | dnsResolutionError
  | noInterface
  | dialogError
  deriving DecidableEq, Repr

/-- The external collaborators of `register`: the endpoint, the digest
function, the first non-loopback IPv4 interface (an error when none exists),
the DNS resolution outcome for the registrar (`None` = resolution failure),
and the fresh tag stamped on `From`. -/
structure RegEnv where
  ep : Endpoint
  digest : Credential → Response → String
  localIface : Except RegErr String
  dnsTransport : Option String
  freshTag : String

/-- The response loop of `Registration::register`: `100` is skipped; on a
`401`/`407` the `Via` scan runs first, then a first challenge with a
credential bumps the CSeq, refreshes the `Contact` of the original request
with the public address when one is known, rebuilds the transaction through
the authenticator and resends, while a second challenge (or a challenge
without credential) returns the response as-is; a `200` runs the `Via` scan
and returns; any other response is returned; a non-response message or an
exhausted channel yields the terminated-transaction error.  `sent` collects
the resent transactions in order. -/
def registerLoop (env : RegEnv) (st : Registration) (tx : Transaction) (authSent : Bool)
    (sent : List Transaction) : List Msg → Except RegErr (Registration × Response × List Transaction)
  | [] => .error .dialogError
  | .request _ :: _ => .error .dialogError
  | .response resp :: rest =>
    if resp.status_code = 100 then
      registerLoop env st tx authSent sent rest
    else if resp.status_code = 401 ∨ resp.status_code = 407 then
      let st := scanVias st resp
      if authSent then
        .ok (st, resp, sent)
      else
        match st.credential with
        | some cred =>
          let st := { st with lastSeq := (st.lastSeq + 1) % 2 ^ 32 }
          let tx := match st.publicAddress with
            | some (ip, port) =>
              let newContact : ContactVal :=
                { display_name := none
                  uri := { scheme := some "sip"
                           auth := st.credential.map (·.username)
                           host_with_port := { host := ip, port := some port }
                           params := []
                           uheaders := [] }
                  params := [.other "ob" none] }
              { tx with original :=
                  { tx.original with headers := uniquePush tx.original.headers (.contact newContact) } }
            | none => tx
          let tx := handleClientAuthenticate env.digest st.lastSeq tx resp cred
          registerLoop env st tx true (sent ++ [tx]) rest
        | none => .ok (st, resp, sent)
    else if resp.status_code = 200 then
      .ok (scanVias st resp, resp, sent)
    else
      .ok (st, resp, sent)

/-- `Registration::register`: bump the CSeq, address the user at the
registrar in both `From` and `To` (with the credential's username), compute
the `Via` address (the discovered public address when available, else the
first non-loopback interface) and its transport from DNS resolution (a
resolution failure is a `DnsResolutionError`), reuse the cached contact or
build one from the public (else local) address with the `ob` parameter, build
the REGISTER, send it and run the response loop.  The returned transaction
list holds every sent transaction, the initial one first. -/
def register (env : RegEnv) (st : Registration) (server : String) (msgs : List Msg) :
    Except RegErr (Registration × Response × List Transaction) := do
  let st := { st with lastSeq := (st.lastSeq + 1) % 2 ^ 32 }
  let recipient : Uri :=
    { scheme := some "sip", auth := none
      host_with_port := { host := server, port := none }, params := [], uheaders := [] }
  let toUri : Uri := match st.credential with
    | some cred => { recipient with auth := some cred.username }
    | none => recipient
  let toN : NameAddr := { display_name := none, uri := toUri, params := [] }
  let fromN : NameAddr := { display_name := none, uri := toUri, params := [.tag env.freshTag] }
  let hwp : HostWithPort ← match st.publicAddress with
    | some (ip, port) => pure { host := ip, port := some port }
    | none => do
      let iface ← env.localIface
      pure { host := iface, port := none }
  match env.dnsTransport with
  | none => .error .dnsResolutionError
  | some tr =>
    let firstAddr : SipAddr := { ttype := some tr, addr := hwp }
    let contact : ContactVal := st.contact.getD
      { display_name := none
        uri := { scheme := some "sip"
                 auth := toUri.auth
                 host_with_port := match st.publicAddress with
                   | some (ip, port) => { host := ip, port := some port }
                   | none => firstAddr.addr
                 params := []
                 uheaders := [] }
        params := [.other "ob" none] }
    let via := env.ep.getVia (some firstAddr) none
    let request := env.ep.mkRequest .register recipient via fromN toN st.lastSeq
    let request := { request with headers := uniquePush request.headers (.contact contact) }
    let request := { request with headers := uniquePush request.headers (.allow st.allow) }
    let tx : Transaction := { original := request, destination := none, connection := none }
    registerLoop env st tx false [tx] msgs

/-! ### Concrete fixtures used by witnesses and counterexamples -/

def exId : DialogId := ⟨"call-1", "alice-tag", "bob-tag"⟩

def exHwp : HostWithPort := ⟨"192.0.2.1", some 5060⟩

def exAddr : SipAddr := ⟨some "udp", exHwp⟩

def exUri : Uri := ⟨some "sip", some "bob", ⟨"198.51.100.9", some 5060⟩, [], []⟩

def exFrom : NameAddr := ⟨none, exUri, [.tag "alice-tag"]⟩

def exTo : NameAddr := ⟨none, exUri, []⟩

def exEp : Endpoint := ⟨"rsipstack-test", exAddr, "z9hG4bK-1", "cid-1"⟩

def exRouteUri1 : Uri := ⟨some "sip", none, ⟨"proxy1.example.com", some 5060⟩, [.lr], []⟩

def exRouteUri2 : Uri :=
  ⟨some "sip", none, ⟨"proxy2.example.com", some 5060⟩, [.lr, .transport "tcp"], []⟩

def exInvite : Request :=
  { method := .invite
    uri := exUri
    headers := [.via (exEp.getVia none none), .fromH exFrom, .toH exTo,
                .callId "call-1", .cseq ⟨10, .invite⟩, .contact ⟨none, exUri, []⟩,
                .recordRoute [exRouteUri1], .recordRoute [exRouteUri2]]
    body := [] }

def exSt : DialogSt :=
  { role := .client
    id := exId
    state := .terminated exId .uacBye
    localSeq := 10
    remoteSeq := 10
    localContact := some exUri
    remoteUri := exUri
    fromV := exFrom
    toV := exTo
    credential := none
    routeSet := []
    publicAddress := none
    initialRequest := exInvite
    events := []
    channelOpen := true }

def exResp200 : Response := ⟨200, [], []⟩

def exResp401 : Response := ⟨401, [], []⟩

/-! ### Claims -/

/-- C1 counterexample: a dialog whose persistent state is
`Terminated(UacBye)`; calling `transition` with `Confirmed` *does* change the
persistent state, so `Terminated` is not absorbing in
`DialogInner::transition`. -/
theorem C1_counterexample :
    exSt.state = DialogState.terminated exId TerminatedReason.uacBye ∧
    (transition exSt (DialogState.confirmed exId)).state = DialogState.confirmed exId ∧
    (transition exSt (DialogState.confirmed exId)).state ≠ exSt.state := by
  refine ⟨rfl, rfl, ?_⟩
  decide

/-- C1 (amended): once the persistent state is `Terminated(reason)`, a call
to `transition` with a transient event state leaves the persistent state
unchanged, but a call with any non-transient state overwrites it —
`Terminated` is not absorbing in `DialogInner::transition` itself. -/
theorem C1_transition_terminated (st : DialogSt) (id0 : DialogId) (r : TerminatedReason)
    (h : st.state = .terminated id0 r) (s : DialogState) :
    (s.isTransientEvent = true → (transition st s).state = st.state) ∧
    (s.isTransientEvent = false → (transition st s).state = s) := by
  constructor <;> intro hs <;> cases s <;>
    by_cases hc : st.channelOpen <;>
      simp_all [transition, DialogState.isTransientEvent]

/-- C1 witness: the amended theorem applied at a concrete terminated dialog
and a concrete transient event. -/
theorem C1_transition_terminated_witness :
    (DialogState.updated exId exInvite).isTransientEvent = true ∧
    (transition exSt (DialogState.updated exId exInvite)).state = exSt.state :=
  ⟨rfl, (C1_transition_terminated exSt exId .uacBye rfl (.updated exId exInvite)).1 rfl⟩

/-- C2: a `transition` with a transient event state (`Updated`, `Notify`,
`Info`, `Options`) sends the event on the state channel (when the channel is
closed nothing is recorded and the call still succeeds identically on the
persistent field), and leaves the persistent state unchanged; only
non-transient states overwrite the persistent state. -/
theorem C2_transition_transient (st : DialogSt) (s : DialogState)
    (h : s.isTransientEvent = true) :
    (transition st s).state = st.state ∧
    (st.channelOpen = true → (transition st s).events = st.events ++ [s]) ∧
    (st.channelOpen = false → (transition st s).events = st.events) ∧
    (∀ s2 : DialogState, s2.isTransientEvent = false → (transition st s2).state = s2) := by
  refine ⟨?_, ?_, ?_, ?_⟩
  · cases s <;> by_cases hc : st.channelOpen <;>
      simp_all [transition, DialogState.isTransientEvent]
  · intro hc; cases s <;> simp_all [transition, DialogState.isTransientEvent]
  · intro hc; cases s <;> simp_all [transition, DialogState.isTransientEvent]
  · intro s2 hs2; cases s2 <;> by_cases hc : st.channelOpen <;>
      simp_all [transition, DialogState.isTransientEvent]

/-- C2 witness: the theorem applied at a concrete dialog state and a concrete
`Updated` event (open channel). -/
theorem C2_transition_transient_witness :
    (DialogState.updated exId exInvite).isTransientEvent = true ∧
    (transition exSt (DialogState.updated exId exInvite)).state = exSt.state ∧
    (transition exSt (DialogState.updated exId exInvite)).events
      = exSt.events ++ [DialogState.updated exId exInvite] :=
  ⟨rfl, (C2_transition_transient exSt (.updated exId exInvite) rfl).1,
    (C2_transition_transient exSt (.updated exId exInvite) rfl).2.1 rfl⟩

/-- C3: `make_request` assembles the headers in exactly the claimed order —
caller-supplied custom headers, `Via` (the provided address if given, else
the stored public address, else the endpoint default inside `get_via`),
`Call-ID` from the dialog id, `From` as stored, `To` as stored, `CSeq` (the
caller value if given, else the auto-incremented local CSeq), `User-Agent`,
`Contact` when a local contact is set, every stored `Route` in order,
`Max-Forwards: 70`, and `Content-Length` when a body is present — and the
Request-URI is the stored remote URI. -/
theorem C3_make_request_headers (ep : Endpoint) (st : DialogSt) (method : Method)
    (cseq : Option Nat) (addr : Option SipAddr) (branch : Option String)
    (headers : Option (List Header)) (body : Option (List Nat)) :
    (makeRequest ep st method cseq addr branch headers body).1.headers =
      headers.getD [] ++
      [.via (ep.getVia (addr.or st.publicAddress) branch),
       .callId st.id.call_id, .fromH st.fromV, .toH st.toV,
       .cseq ⟨cseq.getD ((st.localSeq + 1) % 2 ^ 32), method⟩,
       .userAgent ep.userAgent] ++
      (match st.localContact with
        | some c => [Header.contact ⟨none, c, []⟩]
        | none => []) ++
      st.routeSet.map Header.route ++
      [.maxForwards 70] ++
      (match body with
        | some b => [Header.contentLength b.length]
        | none => []) ∧
    (makeRequest ep st method cseq addr branch headers body).1.uri = st.remoteUri := by
  cases cseq <;> simp [makeRequest, incrementLocalSeq]

/-- The dialog state produced by `DialogInner::new` with the Server role on
the example INVITE (note: the `To` header of the request, tag-completed,
becomes the stored `From`, and conversely). -/
def exStS : DialogSt :=
  { role := .server
    id := exId
    state := .calling exId
    localSeq := 12345
    remoteSeq := 10
    localContact := none
    remoteUri := exUri
    fromV := { exTo with params := exTo.params ++ [.tag "bob-tag"] }
    toV := exFrom
    credential := none
    routeSet := [[exRouteUri1], [exRouteUri2]]
    publicAddress := none
    initialRequest := exInvite
    events := []
    channelOpen := true }

/-- C4 counterexample: constructing a `DialogInner` with the Server role from
the example inbound INVITE yields the initial persistent state `Calling`, not
`Trying` (the source sets `DialogState::Calling(id)` for both roles). -/
theorem C4_counterexample :
    DialogInner.new .server exId exInvite 12345 none none = .ok exStS ∧
    exStS.state = DialogState.calling exId ∧
    exStS.state ≠ DialogState.trying exId := by
  refine ⟨rfl, rfl, ?_⟩
  decide

/-- C4 (amended): a `DialogInner` constructed with the Server role from an
inbound initial INVITE starts in the persistent state `Calling` (the source
sets `Calling` for both roles; the `Trying` transition happens outside the
constructor), `local_seq` is the random 32-bit value from the generator,
`remote_seq` is the INVITE's CSeq, the route set is the INVITE's
`Record-Route` headers in original wire order, and `remote_uri` is the URI of
the INVITE's `Contact`; with the Client role the route set is empty. -/
theorem C4_new_fields (role : TransactionRole) (id : DialogId) (req : Request) (rnd : Nat)
    (cred : Option Credential) (lc : Option Uri) (st : DialogSt)
    (h : DialogInner.new role id req rnd cred lc = .ok st) :
    st.state = .calling id ∧
    (role = .server →
      st.localSeq = rnd % 2 ^ 32 ∧
      (∃ c, cseqOf req.headers = some c ∧ st.remoteSeq = c.seq) ∧
      st.routeSet = recordRoutesOf req.headers ∧
      (∃ u, contactUriOf req.headers = some u ∧ st.remoteUri = u)) ∧
    (role = .client → st.routeSet = []) := by
  cases role <;> simp only [DialogInner.new] at h <;>
    (try split at h) <;> (try split at h) <;> (try split at h) <;>
    first
      | (simp only [Except.ok.injEq] at h; subst h; simp_all)
      | simp_all

/-- C4 witness: the amended theorem applied at the concrete Server-role
construction. -/
theorem C4_new_fields_witness :
    DialogInner.new .server exId exInvite 12345 none none = .ok exStS ∧
    exStS.state = DialogState.calling exId ∧
    exStS.localSeq = 12345 % 2 ^ 32 ∧
    exStS.routeSet = recordRoutesOf exInvite.headers :=
  ⟨rfl, (C4_new_fields .server exId exInvite 12345 none none exStS rfl).1,
    ((C4_new_fields .server exId exInvite 12345 none none exStS rfl).2.1 rfl).1,
    ((C4_new_fields .server exId exInvite 12345 none none exStS rfl).2.1 rfl).2.2.1⟩

def exEnv : Env := ⟨fun _ => .error "no lookup", fun _ _ => "digest"⟩

/-- A confirmed dialog without a credential. -/
def exStC : DialogSt := { exSt with state := .confirmed exId, credential := none }

def exByeReq : Request :=
  { method := .bye
    uri := exUri
    headers := [.via (exEp.getVia none none), .callId "call-1", .fromH exFrom,
                .toH exTo, .cseq ⟨11, .bye⟩, .maxForwards 70]
    body := [] }

def exTx : Transaction := ⟨exByeReq, none, none⟩

/-- C5 counterexample: in `do_request`, a first `401` without a credential
transitions the dialog to `Terminated(ProxyAuthRequired)` but the response
loop does *not* stop (there is no `break` in that branch): a later `200`
is still consumed and returned, where the claim says the loop stops at the
`401`. -/
theorem C5_counterexample :
    exStC.credential = none ∧
    (doRequest exEnv exStC exByeReq [.response exResp401, .response exResp200]).result
      = some exResp200 ∧
    (doRequest exEnv exStC exByeReq [.response exResp401, .response exResp200]).st.state
      = DialogState.terminated exId .proxyAuthRequired := by
  refine ⟨rfl, ?_, ?_⟩ <;> rfl

/-- C5 (amended): in `do_request`'s response loop, on the first `401`/`407`:
with a credential the transaction is rebuilt through the authenticator with
an incremented CSeq (unchanged when the method is CANCEL), resent, and the
loop continues; without a credential the dialog transitions to
`Terminated(ProxyAuthRequired)` and the loop *continues receiving* (the
source has no break there); on a `401`/`407` after a retry the dialog
transitions to `Terminated(ProxyAuthRequired)` and the loop stops. -/
theorem C5_do_request_auth (env : Env) (method : Method) (st : DialogSt) (tx : Transaction)
    (rest : List Msg) (resp : Response)
    (h : resp.status_code = 401 ∨ resp.status_code = 407) :
    (st.credential = none →
      doRequestLoop env method st tx false (.response resp :: rest) =
        doRequestLoop env method
          (transition st (.terminated st.id .proxyAuthRequired)) tx true rest) ∧
    (∀ cred, st.credential = some cred →
      doRequestLoop env method st tx false (.response resp :: rest) =
        (let seqSt := authSeq method st
         let tx' := handleClientAuthenticate env.digest seqSt.1 tx resp cred
         let out := doRequestLoop env method seqSt.2 tx' true rest
         ⟨out.st, out.result, tx' :: out.sent⟩)) ∧
    (doRequestLoop env method st tx true (.response resp :: rest) =
      ⟨transition st (.terminated st.id .proxyAuthRequired), none, []⟩) := by
  have h100 : ¬ resp.status_code = 100 := by rcases h with h | h <;> omega
  have h18x : ¬ (resp.status_code = 180 ∨ resp.status_code = 183) := by
    rcases h with h | h <;> omega
  refine ⟨?_, ?_, ?_⟩
  · intro hc
    rw [doRequestLoop.eq_def]
    dsimp only
    rw [if_neg h100, if_neg h18x, if_pos h, hc]
    rfl
  · intro cred hc
    rw [doRequestLoop.eq_def]
    dsimp only
    rw [if_neg h100, if_neg h18x, if_pos h, hc]
    rfl
  · rw [doRequestLoop.eq_def]
    dsimp only
    rw [if_neg h100, if_neg h18x, if_pos h]
    rfl

/-- C5 witness: the amended theorem applied at a concrete `401` after a
retry (the loop stops with `Terminated(ProxyAuthRequired)`) and at a concrete
first `401` without credential (the loop continues). -/
theorem C5_do_request_auth_witness :
    (exResp401.status_code = 401 ∨ exResp401.status_code = 407) ∧
    doRequestLoop exEnv .bye exStC exTx true [.response exResp401] =
      ⟨transition exStC (.terminated exStC.id .proxyAuthRequired), none, []⟩ ∧
    doRequestLoop exEnv .bye exStC exTx false [.response exResp401] =
      doRequestLoop exEnv .bye
        (transition exStC (.terminated exStC.id .proxyAuthRequired)) exTx true [] :=
  ⟨Or.inl rfl,
    (C5_do_request_auth exEnv .bye exStC exTx [] exResp401 (Or.inl rfl)).2.2,
    (C5_do_request_auth exEnv .bye exStC exTx [] exResp401 (Or.inl rfl)).1 rfl⟩

/-- A mid-dialog request carrying one `Route` header whose first URI has a
non-transport parameter (`lr`) next to a `transport` one. -/
def exRouteReq : Request :=
  { method := .bye
    uri := exUri
    headers := [.via (exEp.getVia none none), .callId "call-1", .fromH exFrom,
                .toH exTo, .cseq ⟨11, .bye⟩, .route [exRouteUri2], .maxForwards 70]
    body := [] }

/-- A transport layer that resolves exactly the stripped first route URI. -/
def exEnvOk : Env :=
  ⟨fun u => if u = { exRouteUri2 with params := [.transport "tcp"] }
            then .ok ("conn-1", exAddr) else .error "unknown host",
   fun _ _ => "digest"⟩

/-- C6: in `do_request`, when the request carries a `Route` header the
transport lookup is performed on the first route URI with every URI parameter
but `transport` stripped, the transmitted transaction's destination and
connection are the lookup's result, and the transmitted request itself
(hence its Request-URI) is unchanged; with no `Route` header the transaction
has no destination override and no connection (the request goes to its
Request-URI). -/
theorem C6_do_request_routing (env : Env) (st : DialogSt) (req : Request) (msgs : List Msg) :
    (∀ uris u c a, firstRouteOf req.headers = some uris → uris.head? = some u →
      env.lookup { u with params := u.params.filter Param.isTransport } = .ok (c, a) →
      (doRequest env st req msgs).sent.head? =
        some { original := req, destination := some a, connection := some c }) ∧
    (firstRouteOf req.headers = none →
      (doRequest env st req msgs).sent.head? =
        some { original := req, destination := none, connection := none }) := by
  constructor
  · intro uris u c a h1 h2 h3
    simp [doRequest, h1, h2, h3]
  · intro h1
    simp [doRequest, h1]

/-- C6 witness: the theorem applied at a concrete routed request (the `lr`
parameter is stripped, `transport=tcp` kept, the resolved address becomes the
transaction destination) and at a concrete route-less request. -/
theorem C6_do_request_routing_witness :
    firstRouteOf exRouteReq.headers = some [exRouteUri2] ∧
    exEnvOk.lookup { exRouteUri2 with params := [.transport "tcp"] } = .ok ("conn-1", exAddr) ∧
    (doRequest exEnvOk exStC exRouteReq [.response exResp200]).sent.head? =
      some { original := exRouteReq, destination := some exAddr, connection := some "conn-1" } ∧
    firstRouteOf exByeReq.headers = none ∧
    (doRequest exEnvOk exStC exByeReq [.response exResp200]).sent.head? =
      some { original := exByeReq, destination := none, connection := none } :=
  ⟨rfl, rfl,
    (C6_do_request_routing exEnvOk exStC exRouteReq [.response exResp200]).1
      [exRouteUri2] exRouteUri2 "conn-1" exAddr rfl rfl rfl,
    rfl,
    (C6_do_request_routing exEnvOk exStC exByeReq [.response exResp200]).2 rfl⟩

def exEnvFail : Env := ⟨fun _ => .error "dns failure", fun _ _ => "digest"⟩

/-- C10 counterexample: with a transport layer whose lookup of the route URI
fails, `do_request` still sends the request (with no destination override)
and returns the normal final response — it does not fail and it does not
withhold the send, contrary to the claim. -/
theorem C10_counterexample :
    (doRequest exEnvFail exStC exRouteReq [.response exResp200]).sent
      = [{ original := exRouteReq, destination := none, connection := none }] ∧
    (doRequest exEnvFail exStC exRouteReq [.response exResp200]).result = some exResp200 := by
  constructor <;> rfl

/-- C10 (amended): when the transport-layer lookup of the first `Route` URI
fails, `do_request` does not return an error: it falls back to no connection
and no destination override, sends the request toward its Request-URI, and
proceeds with the normal response loop. -/
theorem C10_lookup_failure_fallback (env : Env) (st : DialogSt) (req : Request)
    (msgs : List Msg) (uris : List Uri) (u : Uri) (e : String)
    (h1 : firstRouteOf req.headers = some uris) (h2 : uris.head? = some u)
    (h3 : env.lookup { u with params := u.params.filter Param.isTransport } = .error e) :
    doRequest env st req msgs =
      { st := (doRequestLoop env req.method st ⟨req, none, none⟩ false msgs).st
        result := (doRequestLoop env req.method st ⟨req, none, none⟩ false msgs).result
        sent := ⟨req, none, none⟩ ::
          (doRequestLoop env req.method st ⟨req, none, none⟩ false msgs).sent } := by
  simp [doRequest, h1, h2, h3]

/-- C10 witness: the amended theorem applied at the concrete failing lookup. -/
theorem C10_lookup_failure_fallback_witness :
    firstRouteOf exRouteReq.headers = some [exRouteUri2] ∧
    doRequest exEnvFail exStC exRouteReq [.response exResp200] =
      { st := (doRequestLoop exEnvFail exRouteReq.method exStC ⟨exRouteReq, none, none⟩
                 false [.response exResp200]).st
        result := (doRequestLoop exEnvFail exRouteReq.method exStC ⟨exRouteReq, none, none⟩
                 false [.response exResp200]).result
        sent := ⟨exRouteReq, none, none⟩ ::
          (doRequestLoop exEnvFail exRouteReq.method exStC ⟨exRouteReq, none, none⟩
                 false [.response exResp200]).sent } :=
  ⟨rfl, C10_lookup_failure_fallback exEnvFail exStC exRouteReq [.response exResp200]
    [exRouteUri2] exRouteUri2 "dns failure" rfl rfl rfl⟩

/-! ### Header-sequence extraction, for the `make_response` copy claims -/

def fromsOf (hs : List Header) : List NameAddr :=
  hs.filterMap fun h => match h with | .fromH f => some f | _ => none

def tosOf (hs : List Header) : List NameAddr :=
  hs.filterMap fun h => match h with | .toH t => some t | _ => none

def cseqsOf (hs : List Header) : List CSeqVal :=
  hs.filterMap fun h => match h with | .cseq c => some c | _ => none

def callIdsOf (hs : List Header) : List String :=
  hs.filterMap fun h => match h with | .callId c => some c | _ => none

/-- How `make_response` rewrites an echoed `To` header: the local tag is
appended for any non-100 status when no tag is present. -/
def fixTo (tag : String) (status : Nat) (t : NameAddr) : NameAddr :=
  if status ≠ 100 ∧ ¬ t.params.any Param.isTag
  then { t with params := t.params ++ [.tag tag] } else t

theorem filterMap_filter_eq {α β : Type} (f : α → Option β) (p : α → Bool)
    (hp : ∀ x, (f x).isSome → p x = true) :
    ∀ l : List α, (l.filter p).filterMap f = l.filterMap f := by
  intro l
  induction l with
  | nil => rfl
  | cons a t ih =>
    by_cases hpa : p a = true
    · simp [List.filter_cons, hpa, List.filterMap_cons, ih]
    · have hfa : f a = none := by
        cases hfa : f a with
        | none => rfl
        | some b => exact absurd (hp a (by simp [hfa])) (by simp_all)
      simp [List.filter_cons, hpa, List.filterMap_cons, ih, hfa]

theorem viasOf_copyOne (tag : String) (status : Nat) :
    ∀ hs : List Header, viasOf (hs.flatMap (copyOne tag status)) = viasOf hs := by
  intro hs
  induction hs with
  | nil => rfl
  | cons h t ih => cases h <;> simp [copyOne, viasOf, List.filterMap_cons, ih] <;>
      simp [viasOf] at ih <;> exact ih

theorem fromsOf_copyOne (tag : String) (status : Nat) :
    ∀ hs : List Header, fromsOf (hs.flatMap (copyOne tag status)) = fromsOf hs := by
  intro hs
  induction hs with
  | nil => rfl
  | cons h t ih => cases h <;> simp [copyOne, fromsOf, List.filterMap_cons, ih] <;>
      simp [fromsOf] at ih <;> exact ih

theorem cseqsOf_copyOne (tag : String) (status : Nat) :
    ∀ hs : List Header, cseqsOf (hs.flatMap (copyOne tag status)) = cseqsOf hs := by
  intro hs
  induction hs with
  | nil => rfl
  | cons h t ih => cases h <;> simp [copyOne, cseqsOf, List.filterMap_cons, ih] <;>
      simp [cseqsOf] at ih <;> exact ih

theorem callIdsOf_copyOne (tag : String) (status : Nat) :
    ∀ hs : List Header, callIdsOf (hs.flatMap (copyOne tag status)) = callIdsOf hs := by
  intro hs
  induction hs with
  | nil => rfl
  | cons h t ih => cases h <;> simp [copyOne, callIdsOf, List.filterMap_cons, ih] <;>
      simp [callIdsOf] at ih <;> exact ih

theorem recordRoutesOf_copyOne (tag : String) (status : Nat) :
    ∀ hs : List Header, recordRoutesOf (hs.flatMap (copyOne tag status)) = recordRoutesOf hs := by
  intro hs
  induction hs with
  | nil => rfl
  | cons h t ih => cases h <;> simp [copyOne, recordRoutesOf, List.filterMap_cons, ih] <;>
      simp [recordRoutesOf] at ih <;> exact ih

theorem tosOf_copyOne (tag : String) (status : Nat) :
    ∀ hs : List Header,
      tosOf (hs.flatMap (copyOne tag status)) = (tosOf hs).map (fixTo tag status) := by
  intro hs
  induction hs with
  | nil => rfl
  | cons h t ih => cases h <;> simp [copyOne, tosOf, fixTo, List.filterMap_cons, ih] <;>
      simp [tosOf] at ih <;> exact ih

/-- The generic shape of every copy conjunct about `make_response` (no
caller-supplied headers): for an extraction that ignores `Contact`,
`Content-Length` and `User-Agent` headers, the extraction of the response
headers is the extraction of the echoed copies of the request headers. -/
theorem filterMap_makeResponse_none {β : Type} (f : Header → Option β)
    (hcontact : ∀ c, f (.contact c) = none)
    (hcl : ∀ n, f (.contentLength n) = none)
    (hua : ∀ s, f (.userAgent s) = none)
    (ep : Endpoint) (st : DialogSt) (req : Request) (status : Nat) (body : Option (List Nat)) :
    ((makeResponse ep st req status none body).headers).filterMap f =
      (req.headers.flatMap (copyOne st.id.to_tag status)).filterMap f := by
  have hp : ∀ x : Header, (f x).isSome = true →
      (fun h0 => Header.kind h0 != Header.kind (Header.userAgent ep.userAgent)) x = true := by
    intro x hx
    cases x <;> simp_all [Header.kind, hua, hcontact, hcl]
  have h1 : (makeResponse ep st req status none body).headers =
      uniquePush (respCopied st req status ++ (match body with
        | some b => [Header.contentLength b.length]
        | none => [])) (.userAgent ep.userAgent) := rfl
  rw [h1]
  unfold uniquePush
  rw [List.filterMap_append,
    filterMap_filter_eq f (fun h0 => Header.kind h0 != Header.kind (Header.userAgent ep.userAgent)) hp]
  simp only [respCopied, List.filterMap_append]
  cases st.localContact <;> cases body <;> simp [hcontact, hcl, hua]

/-- C8: `make_response` echoes the `Via`, `From`, `CSeq`, `Call-Id` and
`Record-Route` header sequences of the triggering request unchanged (in
particular the ordered `Record-Route` sequence is that of the request), echoes
the `To` headers with the local tag appended for any non-100 status when not
already present (and untouched for 100), applies caller-supplied headers with
`unique_push` (overwrite-same-kind) semantics, sets `Content-Length` when a
body is present, and stamps `User-Agent`. -/
theorem C8_make_response (ep : Endpoint) (st : DialogSt) (req : Request) (status : Nat)
    (body : Option (List Nat)) :
    viasOf (makeResponse ep st req status none body).headers = viasOf req.headers ∧
    fromsOf (makeResponse ep st req status none body).headers = fromsOf req.headers ∧
    cseqsOf (makeResponse ep st req status none body).headers = cseqsOf req.headers ∧
    callIdsOf (makeResponse ep st req status none body).headers = callIdsOf req.headers ∧
    recordRoutesOf (makeResponse ep st req status none body).headers
      = recordRoutesOf req.headers ∧
    tosOf (makeResponse ep st req status none body).headers
      = (tosOf req.headers).map (fixTo st.id.to_tag status) ∧
    tosOf (makeResponse ep st req 100 none body).headers = tosOf req.headers ∧
    (∀ hs, makeResponse ep st req status (some hs) body =
      { status_code := status
        headers := uniquePush
          ((hs.foldl uniquePush (respCopied st req status)) ++ (match body with
            | some b => [Header.contentLength b.length]
            | none => []))
          (.userAgent ep.userAgent)
        body := body.getD [] }) ∧
    Header.userAgent ep.userAgent ∈ (makeResponse ep st req status none body).headers ∧
    (∀ b, Header.contentLength b.length
      ∈ (makeResponse ep st req status none (some b)).headers) := by
  refine ⟨?_, ?_, ?_, ?_, ?_, ?_, ?_, fun hs => rfl, ?_, ?_⟩
  · exact (filterMap_makeResponse_none
      (fun h => match h with | Header.via v => some v | _ => none)
      (fun _ => rfl) (fun _ => rfl) (fun _ => rfl) ep st req status body).trans
      (viasOf_copyOne st.id.to_tag status req.headers)
  · exact (filterMap_makeResponse_none
      (fun h => match h with | Header.fromH v => some v | _ => none)
      (fun _ => rfl) (fun _ => rfl) (fun _ => rfl) ep st req status body).trans
      (fromsOf_copyOne st.id.to_tag status req.headers)
  · exact (filterMap_makeResponse_none
      (fun h => match h with | Header.cseq v => some v | _ => none)
      (fun _ => rfl) (fun _ => rfl) (fun _ => rfl) ep st req status body).trans
      (cseqsOf_copyOne st.id.to_tag status req.headers)
  · exact (filterMap_makeResponse_none
      (fun h => match h with | Header.callId v => some v | _ => none)
      (fun _ => rfl) (fun _ => rfl) (fun _ => rfl) ep st req status body).trans
      (callIdsOf_copyOne st.id.to_tag status req.headers)
  · exact (filterMap_makeResponse_none
      (fun h => match h with | Header.recordRoute v => some v | _ => none)
      (fun _ => rfl) (fun _ => rfl) (fun _ => rfl) ep st req status body).trans
      (recordRoutesOf_copyOne st.id.to_tag status req.headers)
  · exact (filterMap_makeResponse_none
      (fun h => match h with | Header.toH v => some v | _ => none)
      (fun _ => rfl) (fun _ => rfl) (fun _ => rfl) ep st req status body).trans
      (tosOf_copyOne st.id.to_tag status req.headers)
  · have hfix : ∀ t, fixTo st.id.to_tag 100 t = t := by
      intro t; simp [fixTo]
    have h6 := (filterMap_makeResponse_none
      (fun h => match h with | Header.toH v => some v | _ => none)
      (fun _ => rfl) (fun _ => rfl) (fun _ => rfl) ep st req 100 body).trans
      (tosOf_copyOne st.id.to_tag 100 req.headers)
    rw [List.map_congr_left (fun t _ => hfix t)] at h6
    simpa using h6
  · simp [makeResponse, uniquePush]
  · intro b
    simp [makeResponse, uniquePush, List.mem_filter, Header.kind]

/-! ### Registration fixtures -/

def exCred : Credential := ⟨"alice", "secret", none⟩

def exRegEnv : RegEnv := ⟨exEp, fun _ _ => "resp-digest", .ok "10.0.0.2", some "udp", "tag-1"⟩

/-- A `401` whose `Via` reports `received=203.0.113.7` and `rport=33344`. -/
def exResp401v : Response :=
  ⟨401, [.via ⟨some exAddr, some "z",
    [.received "203.0.113.7", .other "rport" (some "33344")]⟩], []⟩

def exReg0 : Registration := ⟨41, some exCred, none, "", none⟩

def exRegOut : Except RegErr (Registration × Response × List Transaction) :=
  register exRegEnv exReg0 "sip.example.com" [.response exResp401v, .response exResp200]

/-- C7 counterexample: in the challenged registration, the authenticated
retry REGISTER carries a `Contact` whose URI host and port are the learned
`received`/`rport` pair, but its `Via` still advertises the pre-challenge
local address `10.0.0.2`, not `203.0.113.7:33344` — the authenticator only
replaces the CSeq and attaches the authorization header, so the claim's
"a Via that advertises R:P" fails on the retry. -/
theorem C7_counterexample :
    ((exRegOut.toOption.bind fun o => o.2.2.getLast?).map fun t =>
        ((contactUriOf t.original.headers).map fun u => u.host_with_port,
         (viasOf t.original.headers).head?.map fun v => v.sentBy))
      = some (some ⟨"203.0.113.7", some 33344⟩,
              some (some ⟨some "udp", ⟨"10.0.0.2", none⟩⟩)) ∧
    (⟨"10.0.0.2", none⟩ : HostWithPort) ≠ ⟨"203.0.113.7", some 33344⟩ := by
  constructor <;> decide

/-- A `401` whose single `Via` reports `received=R` and `rport=Pstr`. -/
def c7Resp401 (R Pstr : String) : Response :=
  ⟨401, [.via ⟨some exAddr, some "z", [.received R, .other "rport" (some Pstr)]⟩], []⟩

/-- A registration state with a credential, no cached contact and no
discovered public address. -/
def c7St0 (cred : Credential) : Registration := ⟨41, some cred, none, "", none⟩

/-- C7 (amended): on a `401` whose `Via` carries `received=R` and `rport=P`
differing from the stored public address, `register` updates
`public_address` to `(R, P)` and invalidates the cached `Contact`; the
authenticated retry carries a `Contact` whose URI host and port equal `R:P`
and an incremented CSeq, but its `Via` still advertises the address chosen
before the challenge (the authenticator replaces only the CSeq and attaches
the authorization header); the learned `R:P` appears in both the `Via` and
the `Contact` of the *next* `register` call; a second `401` after the retry
is returned to the caller as-is. -/
theorem C7_register_discovery (R Pstr : String) (P : Nat) (cred : Credential)
    (hP : parseU16 Pstr = some P) :
    ((register exRegEnv (c7St0 cred) "sip.example.com"
        [.response (c7Resp401 R Pstr), .response exResp200]).toOption.map
      fun o => (o.1.publicAddress, o.1.contact, o.1.lastSeq))
      = some (some (R, P), none, 43) ∧
    (((register exRegEnv (c7St0 cred) "sip.example.com"
        [.response (c7Resp401 R Pstr), .response exResp200]).toOption.bind
          fun o => o.2.2.getLast?).map fun t =>
        ((contactUriOf t.original.headers).map fun u => u.host_with_port,
         (viasOf t.original.headers).head?.map fun v => v.sentBy,
         cseqOf t.original.headers))
      = some (some ⟨R, some P⟩,
              some (some ⟨some "udp", ⟨"10.0.0.2", none⟩⟩),
              some ⟨43, .register⟩) ∧
    ((register exRegEnv (c7St0 cred) "sip.example.com"
        [.response (c7Resp401 R Pstr), .response exResp401]).toOption.map
      fun o => o.2.1) = some exResp401 ∧
    (((register exRegEnv ⟨43, some cred, none, "", some (R, P)⟩ "sip.example.com"
        [.response exResp200]).toOption.bind fun o => o.2.2.head?).map fun t =>
        ((viasOf t.original.headers).head?.map fun v => v.sentBy,
         (contactUriOf t.original.headers).map fun u => u.host_with_port))
      = some (some (some ⟨some "udp", ⟨R, some P⟩⟩), some ⟨R, some P⟩) := by
  refine ⟨?_, ?_, ?_, ?_⟩ <;>
    simp [register, registerLoop, scanVias, extractReceivedRport, viasOf,
      contactUriOf, cseqOf, uniquePush, handleClientAuthenticate, setCSeqSeq,
      Endpoint.mkRequest, Endpoint.getVia, Header.kind, c7Resp401, c7St0,
      exRegEnv, exEp, exAddr, exResp200, exResp401, hP,
      bind, Except.bind, pure, Except.pure, Except.toOption]

/-- C7 witness: the amended theorem applied at
`R = 203.0.113.7`, `rport = 33344`, with a concrete credential. -/
theorem C7_register_discovery_witness :
    parseU16 "33344" = some 33344 ∧
    ((register exRegEnv (c7St0 exCred) "sip.example.com"
        [.response (c7Resp401 "203.0.113.7" "33344"), .response exResp200]).toOption.map
      fun o => (o.1.publicAddress, o.1.contact, o.1.lastSeq))
      = some (some ("203.0.113.7", 33344), none, 43) :=
  ⟨by decide,
    (C7_register_discovery "203.0.113.7" "33344" 33344 exCred (by decide)).1⟩

/-- A `200 OK` echoing a `Contact` that carries `expires=3600`. -/
def exContactE : ContactVal := ⟨none, exUri, [.expiresP "3600"]⟩

def exResp200e : Response := ⟨200, [.contact exContactE], []⟩

def exRegOutE : Except RegErr (Registration × Response × List Transaction) :=
  register exRegEnv exReg0 "sip.example.com" [.response exResp200e]

/-- C9: the successful registration response echoes a `Contact` carrying
`expires=3600`, yet after the run the cached contact is still `None` (the
code never stores the response's `Contact`; it only clears the cache), so
`expires()` returns the default 50 instead of 3600 — had the echoed contact
been stored, `expires()` would have returned 3600. -/
theorem C9_expires_never_echoed :
    (exRegOutE.toOption.map fun o => (o.2.1, o.1.contact, o.1.expires))
      = some (exResp200e, none, 50) ∧
    exResp200e.headers = [.contact exContactE] ∧
    exContactE.expiresParam = some "3600" ∧
    Registration.expires ⟨42, some exCred, some exContactE, "", none⟩ = 3600 := by
  refine ⟨by decide, rfl, rfl, by decide⟩

end RsipStack
